import Mathlib

/-!
Shallow embedding of the SafeTransitPD repository (src/app.py and
src/telegram_bot.py): the safety-score function and the report-intake
conversation of the Telegram bot.  Python floats are modelled by `ℚ`
(all scores are multiples of 1/2, exactly representable), Python dicts
emitted as reports by association lists `List (String × Val)`, raised
exceptions by `Option`/`Except`.
-/

namespace SafeTransit

/-- A value stored in a python-dict report record. -/
inductive Val where
  | str (s : String)
  | strList (l : List String)
  | int (i : ℤ)
  | num (q : ℚ)
deriving DecidableEq, Repr

/-- A python dict as emitted for a report: insertion-ordered association list. -/
abbrev Dict := List (String × Val)

/-! ### src/app.py, `calculate_safety_score` (lines 99-125) -/

/-- `modifiers["crowd_level"]` dict lookup: `none` models a `KeyError`. -/
def crowdLevelModifier (c : String) : Option ℚ :=
  if c = "Low" then some 0
  else if c = "Medium" then some (-(1/2))
  else if c = "High" then some (-1)
  else none

/-- `modifiers["safety_concerns"]` dict lookup. -/
def safetyConcernModifier (c : String) : Option ℚ :=
  if c = "None" then some 0
  else if c = "Poor Lighting" then some (-1)
  else if c = "Suspicious Activity" then some (-2)
  else if c = "Technical Issues" then some (-(1/2))
  else none

/-- The `for concern in report_data["safety_concerns"]` loop: a concern with a
known modifier adds it to the running score, any other string is skipped. -/
def applyConcerns (score : ℚ) : List String → ℚ
  | [] => score
  | c :: rest =>
    match safetyConcernModifier c with
    | some m => applyConcerns (score + m) rest
    | none => applyConcerns score rest

/-- `calculate_safety_score`: base 5.0, unguarded crowd-level lookup (KeyError
modelled as `none`), guarded concern loop, final clamp `max(1.0, min(5.0, _))`. -/
def calculate_safety_score (crowd_level : String) (safety_concerns : List String) :
    Option ℚ :=
  (crowdLevelModifier crowd_level).map
    (fun m => max 1 (min 5 (applyConcerns (5 + m) safety_concerns)))

/-! ### Spec-side enumerations (§3 of the spec), used to quantify over the
expected input domain. -/

inductive CrowdLevel where
  | Low
  | Medium
  | High
deriving DecidableEq, Repr

def CrowdLevel.toStr : CrowdLevel → String
  | .Low => "Low"
  | .Medium => "Medium"
  | .High => "High"

inductive Concern where
  | noConcern
  | poorLighting
  | suspiciousActivity
  | technicalIssues
deriving DecidableEq, Repr

def Concern.toStr : Concern → String
  | .noConcern => "None"
  | .poorLighting => "Poor Lighting"
  | .suspiciousActivity => "Suspicious Activity"
  | .technicalIssues => "Technical Issues"

/-- Spec-side crowd modifier table (Low:0, Medium:-0.5, High:-1.0). -/
def crowdModifierSpec : CrowdLevel → ℚ
  | .Low => 0
  | .Medium => -(1/2)
  | .High => -1

/-- Spec-side concern modifier table. -/
def concernModifierSpec : Concern → ℚ
  | .noConcern => 0
  | .poorLighting => -1
  | .suspiciousActivity => -2
  | .technicalIssues => -(1/2)

/-! ### Lemmas about the score loop -/

lemma applyConcerns_eq_sum (s : ℚ) (l : List String) :
    applyConcerns s l
      = s + (l.map (fun c => (safetyConcernModifier c).getD 0)).sum := by
  induction l generalizing s with
  | nil => simp [applyConcerns]
  | cons c rest ih =>
    simp only [applyConcerns]
    cases h : safetyConcernModifier c with
    | none => simp [ih, h]
    | some m => simp [ih, h]; ring

lemma crowdLevelModifier_toStr (cl : CrowdLevel) :
    crowdLevelModifier cl.toStr = some (crowdModifierSpec cl) := by
  cases cl <;> rfl

lemma safetyConcernModifier_toStr (c : Concern) :
    (safetyConcernModifier c.toStr).getD 0 = concernModifierSpec c := by
  cases c <;> rfl

/-! ### src/telegram_bot.py: the report-intake conversation

`ConversationHandler` states `LOCATION, CROWD_LEVEL, SAFETY_CONCERNS,
ADDITIONAL_INFO = range(4)`; `ConversationHandler.END` is modelled by
`ENDED` (no active conversation).  `context.user_data` is the per-actor
partial record; `self.reports` the in-memory report store; the
`query_engine` collaborator is `Option (Dict → Except String String)`
(absent, or a call that returns a text or raises). -/

inductive ConvState where
  | LOCATION
  | CROWD_LEVEL
  | SAFETY_CONCERNS
  | ADDITIONAL_INFO
  | ENDED
deriving DecidableEq, Repr

/-- `context.user_data` for a report session; a missing key is `none`. -/
structure UserData where
  location : Option String := none
  crowd_level : Option String := none
  safety_concerns : Option (List String) := none
  additional_info : Option String := none
  timestamp : Option String := none
deriving DecidableEq, Repr

/-- The bus-stop keys of `create_sample_data` in src/app.py (the stop
registry handed to the bot). -/
def sampleBusStops : List String :=
  ["Stazione FS", "Prato della Valle", "Basilica del Santo",
   "Piazza delle Erbe", "Ospedale"]

/-- `start_report`: offers the stop keyboard and enters `LOCATION`. -/
def start_report (stops : List String) :
    List (List String) × String × ConvState :=
  (stops.map (fun l => [l]), "📍 Please select your location:", .LOCATION)

/-- `process_location`: stores the message text as `location` (no check
against the stop registry) and advances to `CROWD_LEVEL`. -/
def process_location (text : String) (d : UserData) :
    UserData × String × ConvState :=
  ({ d with location := some text },
   "👥 What's the current crowd level?", .CROWD_LEVEL)

/-- `process_crowd_level`: stores the message text as `crowd_level`
(no membership check) and advances to `SAFETY_CONCERNS`. -/
def process_crowd_level (text : String) (d : UserData) :
    UserData × String × ConvState :=
  ({ d with crowd_level := some text },
   "⚠️ Any safety concerns? Select one:", .SAFETY_CONCERNS)

/-- `process_safety_concerns`: stores the single-element list
`[update.message.text]` and advances to `ADDITIONAL_INFO`. -/
def process_safety_concerns (text : String) (d : UserData) :
    UserData × String × ConvState :=
  ({ d with safety_concerns := some [text] },
   "📝 Any additional information? (Type 'none' if nothing to add)",
   .ADDITIONAL_INFO)

/-- `complete_report` (telegram_bot.py lines 118-150): stores
`additional_info` and `timestamp` into `user_data`, builds `report_data`
from `location`, `crowd_level`, `safety_concerns`, `timestamp` only
(no safety score is computed, `additional_info` is not included),
appends it to `self.reports`, then — if the query engine is present —
obtains the AI analysis (an exception there propagates, modelled as
`Except.error`, after the append), and finally returns the confirmation
text and `ConversationHandler.END`.  A missing `user_data` key
(impossible in a full run) is a `KeyError`, modelled as `none`. -/
def complete_report (text now : String)
    (qe : Option (Dict → Except String String))
    (d : UserData) (reports : List Dict) :
    Option (UserData × List Dict × Except String (String × ConvState)) :=
  match d.location, d.crowd_level, d.safety_concerns with
  | some loc, some cl, some cs =>
    let d1 : UserData :=
      { d with additional_info := some text, timestamp := some now }
    let report_data : Dict :=
      [("location", Val.str loc), ("crowd_level", Val.str cl),
       ("safety_concerns", Val.strList cs), ("timestamp", Val.str now)]
    let reports1 := reports ++ [report_data]
    let analysisRes : Except String String :=
      match qe with
      | none => Except.ok ""
      | some f => f report_data
    match analysisRes with
    | Except.error e => some (d1, reports1, Except.error e)
    | Except.ok analysis =>
      let base : String :=
        "✅ Report submitted successfully!\n\n" ++
        "📍 Location: " ++ loc ++ "\n" ++
        "👥 Crowd Level: " ++ cl ++ "\n" ++
        "⚠️ Safety Concerns: " ++ String.intercalate ", " cs ++ "\n"
      let conf := if analysis = "" then base
                  else base ++ "\n🤖 AI Analysis: " ++ analysis
      some (d1, reports1, Except.ok (conf, ConvState.ENDED))
  | _, _, _ => none

/-- One input delivered to an active report conversation: a plain text
message, or the `/cancel` fallback. -/
inductive BotInput where
  | msg (text : String)
  | cancel
deriving DecidableEq, Repr

/-- One step of the `ConversationHandler` dispatch of `run`
(telegram_bot.py lines 187-204): each of the four states handles a text
message with its handler; `/cancel` ends the conversation from any
active state (its lambda returns `END` and sends nothing, so the reply
is `ok ""`); a handler that raises leaves the conversation state
unchanged (the library keeps the old state when the callback does not
return).  At `ENDED` there is no active conversation, so no input is
handled. -/
def bot_step (qe : Option (Dict → Except String String)) (now : String)
    (inp : BotInput) (s : ConvState) (d : UserData) (reports : List Dict) :
    Option (ConvState × UserData × List Dict × Except String String) :=
  match inp, s with
  | .cancel, .LOCATION => some (.ENDED, d, reports, Except.ok "")
  | .cancel, .CROWD_LEVEL => some (.ENDED, d, reports, Except.ok "")
  | .cancel, .SAFETY_CONCERNS => some (.ENDED, d, reports, Except.ok "")
  | .cancel, .ADDITIONAL_INFO => some (.ENDED, d, reports, Except.ok "")
  | .cancel, .ENDED => none
  | .msg t, .LOCATION =>
    match process_location t d with
    | (d1, reply, s1) => some (s1, d1, reports, Except.ok reply)
  | .msg t, .CROWD_LEVEL =>
    match process_crowd_level t d with
    | (d1, reply, s1) => some (s1, d1, reports, Except.ok reply)
  | .msg t, .SAFETY_CONCERNS =>
    match process_safety_concerns t d with
    | (d1, reply, s1) => some (s1, d1, reports, Except.ok reply)
  | .msg t, .ADDITIONAL_INFO =>
    match complete_report t now qe d reports with
    | none => none
    | some (d1, reports1, Except.ok (conf, s1)) =>
      some (s1, d1, reports1, Except.ok conf)
    | some (d1, reports1, Except.error e) =>
      some (.ADDITIONAL_INFO, d1, reports1, Except.error e)
  | .msg _, .ENDED => none

/-- Drive the conversation through a list of inputs, tracking
(state, user_data, reports); `none` if any step is unhandled/raises a
`KeyError`. -/
def runSteps (qe : Option (Dict → Except String String)) (now : String) :
    List BotInput → ConvState × UserData × List Dict →
    Option (ConvState × UserData × List Dict)
  | [], st => some st
  | i :: rest, (s, d, reports) =>
    match bot_step qe now i s d reports with
    | none => none
    | some (s1, d1, r1, _) => runSteps qe now rest (s1, d1, r1)

/-! ### src/app.py, the web-form submit path (lines 234-245)

The web variant attaches the full multiselect list of concerns and does
compute `safety_score`; `none` models the `KeyError` that
`calculate_safety_score` raises on an unknown crowd level. -/

def web_submit_report (location : String) (delay : ℤ) (crowd : String)
    (safety_concerns : List String) (additional_info now : String) :
    Option Dict :=
  (calculate_safety_score crowd safety_concerns).map (fun score =>
    [("location", Val.str location), ("delay_minutes", Val.int delay),
     ("crowd_level", Val.str crowd),
     ("safety_concerns", Val.strList safety_concerns),
     ("additional_info", Val.str additional_info),
     ("timestamp", Val.str now), ("safety_score", Val.num score)])

/-- A fully filled session record, as it stands when the conversation
reaches `ADDITIONAL_INFO`. -/
def filledData : UserData :=
  { location := some "Stazione FS", crowd_level := some "High",
    safety_concerns := some ["None"] }

/-- The record `complete_report` emits for `filledData` at time t0. -/
def emittedRecord : Dict :=
  [("location", Val.str "Stazione FS"), ("crowd_level", Val.str "High"),
   ("safety_concerns", Val.strList ["None"]), ("timestamp", Val.str "t0")]

/-! ### Further lemmas -/

lemma crowdLevelModifier_eq_none {c : String}
    (h : c ∉ (["Low", "Medium", "High"] : List String)) :
    crowdLevelModifier c = none := by
  simp only [List.mem_cons, List.not_mem_nil, or_false, not_or] at h
  obtain ⟨h1, h2, h3⟩ := h
  simp [crowdLevelModifier, h1, h2, h3]

lemma safetyConcernModifier_eq_none {c : String}
    (h : c ∉ (["None", "Poor Lighting", "Suspicious Activity",
               "Technical Issues"] : List String)) :
    safetyConcernModifier c = none := by
  simp only [List.mem_cons, List.not_mem_nil, or_false, not_or] at h
  obtain ⟨h1, h2, h3, h4⟩ := h
  simp [safetyConcernModifier, h1, h2, h3, h4]

/-! ### Claim theorems about the safety score -/

/-- C1: for every crowd level in {Low, Medium, High} and every list of
concerns drawn from the four known values, `calculate_safety_score`
returns `max(1.0, min(5.0, 5.0 + crowdModifier + Σ concernModifiers))`
with the modifier tables of the spec; in particular (Low, [None]) ↦ 5.0,
(High, [Suspicious Activity]) ↦ 2.0, (Medium, [Poor Lighting]) ↦ 3.5. -/
theorem calculate_safety_score_formula :
    (∀ (cl : CrowdLevel) (cs : List Concern),
        calculate_safety_score cl.toStr (cs.map Concern.toStr)
          = some (max 1 (min 5
              (5 + crowdModifierSpec cl + (cs.map concernModifierSpec).sum)))) ∧
    calculate_safety_score "Low" ["None"] = some 5 ∧
    calculate_safety_score "High" ["Suspicious Activity"] = some 2 ∧
    calculate_safety_score "Medium" ["Poor Lighting"] = some (7/2) := by
  refine ⟨fun cl cs => ?_, ?_, ?_, ?_⟩
  · unfold calculate_safety_score
    rw [crowdLevelModifier_toStr]
    simp only [Option.map_some']
    rw [applyConcerns_eq_sum, List.map_map]
    have hmap : cs.map ((fun c => (safetyConcernModifier c).getD 0) ∘ Concern.toStr)
        = cs.map concernModifierSpec :=
      List.map_congr_left (fun a _ => safetyConcernModifier_toStr a)
    rw [hmap, add_assoc]
  · simp +decide only [calculate_safety_score, crowdLevelModifier,
      safetyConcernModifier, applyConcerns]
    norm_num
  · simp +decide only [calculate_safety_score, crowdLevelModifier,
      safetyConcernModifier, applyConcerns]
    norm_num
  · simp +decide only [calculate_safety_score, crowdLevelModifier,
      safetyConcernModifier, applyConcerns]
    norm_num

/-- C5: `calculate_safety_score` is deterministic and pure (it is a
function of its two arguments), every returned score lies in
[1.0, 5.0], and permuting the concern list never changes the result. -/
theorem calculate_safety_score_pure :
    (∀ c l, calculate_safety_score c l = calculate_safety_score c l) ∧
    (∀ c l r, calculate_safety_score c l = some r → 1 ≤ r ∧ r ≤ 5) ∧
    (∀ c l₁ l₂, l₁.Perm l₂ →
        calculate_safety_score c l₁ = calculate_safety_score c l₂) := by
  refine ⟨fun c l => rfl, fun c l r h => ?_, fun c l₁ l₂ hp => ?_⟩
  · unfold calculate_safety_score at h
    rw [Option.map_eq_some'] at h
    obtain ⟨m, _, hr⟩ := h
    subst hr
    exact ⟨le_max_left _ _, max_le (by norm_num) (min_le_left _ _)⟩
  · unfold calculate_safety_score
    cases crowdLevelModifier c with
    | none => rfl
    | some m =>
      simp only [Option.map_some']
      rw [applyConcerns_eq_sum, applyConcerns_eq_sum,
        (hp.map (fun c => (safetyConcernModifier c).getD 0)).sum_eq]

/-- Witness for C5 at concrete inputs: the score of
(High, [Suspicious Activity]) is 2, which lies in [1, 5], and a swapped
concern list gives the same result. -/
theorem calculate_safety_score_pure_witness :
    ((1:ℚ) ≤ 2 ∧ (2:ℚ) ≤ 5) ∧
    calculate_safety_score "High" ["None", "Poor Lighting"]
      = calculate_safety_score "High" ["Poor Lighting", "None"] :=
  ⟨calculate_safety_score_pure.2.1 "High" ["Suspicious Activity"] 2
      (by simp +decide only [calculate_safety_score, crowdLevelModifier,
            safetyConcernModifier, applyConcerns]; norm_num),
   calculate_safety_score_pure.2.2 "High" _ _
      (List.Perm.swap "Poor Lighting" "None" [])⟩

/-- C9: `calculate_safety_score` is partial in an asymmetric way: an
unknown crowd level is an unguarded dict lookup (KeyError, modelled as
`none`), while an unknown concern string anywhere in the list is
silently skipped and contributes 0. -/
theorem calculate_safety_score_asymmetric :
    (∀ c l, c ∉ (["Low", "Medium", "High"] : List String) →
        calculate_safety_score c l = none) ∧
    (∀ crowd c pre post,
        c ∉ (["None", "Poor Lighting", "Suspicious Activity",
              "Technical Issues"] : List String) →
        calculate_safety_score crowd (pre ++ c :: post)
          = calculate_safety_score crowd (pre ++ post)) := by
  refine ⟨fun c l h => ?_, fun crowd c pre post h => ?_⟩
  · unfold calculate_safety_score
    rw [crowdLevelModifier_eq_none h]
    rfl
  · unfold calculate_safety_score
    cases crowdLevelModifier crowd with
    | none => rfl
    | some m =>
      simp only [Option.map_some']
      rw [applyConcerns_eq_sum, applyConcerns_eq_sum, List.map_append,
        List.map_append, List.map_cons, List.sum_append, List.sum_append,
        List.sum_cons, safetyConcernModifier_eq_none h]
      simp

/-! ### Claim theorems about the bot conversation -/

/-- C2 counterexample: at `LOCATION`, the input "Not A Stop" — which is
not in the stop registry — is nevertheless stored as the location and
the step pointer advances to `CROWD_LEVEL` with the next-field prompt;
no re-prompt and no rejection happen, contradicting the claim. -/
theorem invalid_location_stored_and_advances :
    "Not A Stop" ∉ sampleBusStops ∧
    bot_step none "t0" (.msg "Not A Stop") .LOCATION {} []
      = some (.CROWD_LEVEL, { location := some "Not A Stop" }, [],
              Except.ok "👥 What's the current crowd level?") :=
  ⟨by decide, rfl⟩

/-- C2 amended: the bot performs no input validation at all — at
`LOCATION`, `CROWD_LEVEL` and `SAFETY_CONCERNS` every text message
(inside or outside the expected domain) is stored into the partial
record and the step pointer advances with the next-field prompt. -/
theorem no_input_validation :
    ∀ (t now : String) (d : UserData) (reports : List Dict)
      (qe : Option (Dict → Except String String)),
      bot_step qe now (.msg t) .LOCATION d reports
        = some (.CROWD_LEVEL, { d with location := some t }, reports,
                Except.ok "👥 What's the current crowd level?") ∧
      bot_step qe now (.msg t) .CROWD_LEVEL d reports
        = some (.SAFETY_CONCERNS, { d with crowd_level := some t }, reports,
                Except.ok "⚠️ Any safety concerns? Select one:") ∧
      bot_step qe now (.msg t) .SAFETY_CONCERNS d reports
        = some (.ADDITIONAL_INFO, { d with safety_concerns := some [t] },
                reports,
                Except.ok
                  "📝 Any additional information? (Type 'none' if nothing to add)") :=
  fun _ _ _ _ _ => ⟨rfl, rfl, rfl⟩

/-- C3: at a concrete completed run, `complete_report` does append the
record, return the confirmation and end the conversation, but the
emitted record holds only location, crowd_level, safety_concerns and
timestamp: no `safety_score` is computed (despite the
`# Calculate safety score` comment in the source) and `additional_info`
is omitted, contradicting the claim that all six fields are emitted. -/
theorem complete_report_omits_score_and_info :
    complete_report "lights broken" "t0" none filledData []
      = some ({ filledData with
                additional_info := some "lights broken"
                timestamp := some "t0" },
              [emittedRecord],
              Except.ok
                ("✅ Report submitted successfully!\n\n📍 Location: Stazione FS\n👥 Crowd Level: High\n⚠️ Safety Concerns: None\n",
                 .ENDED)) ∧
    List.lookup "location" emittedRecord = some (Val.str "Stazione FS") ∧
    List.lookup "timestamp" emittedRecord = some (Val.str "t0") ∧
    List.lookup "safety_score" emittedRecord = none ∧
    List.lookup "additional_info" emittedRecord = none :=
  ⟨rfl, rfl, rfl, rfl, rfl⟩

/-- If the three earlier fields are present and the collaborator (when
present) answers without raising, `complete_report` stores the new
fields, appends exactly the four-field record and returns a
confirmation together with `END`. -/
lemma complete_report_ok (text now : String)
    (qe : Option (Dict → Except String String))
    (d : UserData) (reports : List Dict) (loc cl : String) (cs : List String)
    (hloc : d.location = some loc) (hcl : d.crowd_level = some cl)
    (hcs : d.safety_concerns = some cs)
    (hqe : ∀ f dct, qe = some f → ∃ a, f dct = Except.ok a) :
    ∃ conf, complete_report text now qe d reports
      = some ({ d with additional_info := some text, timestamp := some now },
              reports ++
                [[("location", Val.str loc), ("crowd_level", Val.str cl),
                  ("safety_concerns", Val.strList cs),
                  ("timestamp", Val.str now)]],
              Except.ok (conf, .ENDED)) := by
  obtain ⟨dloc, dcl, dcs, dinfo, dts⟩ := d
  simp only at hloc hcl hcs
  subst hloc; subst hcl; subst hcs
  cases qe with
  | none => exact ⟨_, rfl⟩
  | some f =>
    obtain ⟨a, ha⟩ := hqe f
      [("location", Val.str loc), ("crowd_level", Val.str cl),
       ("safety_concerns", Val.strList cs), ("timestamp", Val.str now)] rfl
    unfold complete_report
    simp only [ha]
    exact ⟨_, rfl⟩

/-- C4: for every input sequence whose four values are valid (location
in the registry, crowd level in {Low, Medium, High}, concern one of the
four enum values, any text) and a collaborator that is absent or
answers, the machine is still mid-intake after 3 transitions, reaches
`END` at exactly the 4th, and the resulting session record and appended
report carry exactly the supplied inputs. -/
theorem valid_run_reaches_complete :
    ∀ (stops : List String) (loc cl c info now : String)
      (qe : Option (Dict → Except String String)) (reports : List Dict),
      loc ∈ stops →
      cl ∈ (["Low", "Medium", "High"] : List String) →
      c ∈ (["None", "Poor Lighting", "Suspicious Activity",
            "Technical Issues"] : List String) →
      (∀ f dct, qe = some f → ∃ a, f dct = Except.ok a) →
      runSteps qe now [.msg loc, .msg cl, .msg c] (.LOCATION, {}, reports)
        = some (.ADDITIONAL_INFO,
            { location := some loc, crowd_level := some cl,
              safety_concerns := some [c] }, reports) ∧
      runSteps qe now [.msg loc, .msg cl, .msg c, .msg info]
          (.LOCATION, {}, reports)
        = some (.ENDED,
            { location := some loc, crowd_level := some cl,
              safety_concerns := some [c], additional_info := some info,
              timestamp := some now },
            reports ++
              [[("location", Val.str loc), ("crowd_level", Val.str cl),
                ("safety_concerns", Val.strList [c]),
                ("timestamp", Val.str now)]]) := by
  intro stops loc cl c info now qe reports _ _ _ hqe
  refine ⟨rfl, ?_⟩
  obtain ⟨conf, hcr⟩ :=
    complete_report_ok info now qe
      { location := some loc, crowd_level := some cl,
        safety_concerns := some [c] }
      reports loc cl [c] rfl rfl rfl hqe
  show runSteps qe now [.msg info]
      (.ADDITIONAL_INFO,
       { location := some loc, crowd_level := some cl,
         safety_concerns := some [c] }, reports) = _
  simp only [runSteps, bot_step, hcr]

/-- Witness for C4: the concrete valid run ("Stazione FS", "High",
"None", "ok") with no collaborator. -/
theorem valid_run_reaches_complete_witness :
    runSteps none "t0" [.msg "Stazione FS", .msg "High", .msg "None"]
        (.LOCATION, {}, [])
      = some (.ADDITIONAL_INFO, filledData, []) ∧
    runSteps none "t0"
        [.msg "Stazione FS", .msg "High", .msg "None", .msg "ok"]
        (.LOCATION, {}, [])
      = some (.ENDED,
          { filledData with
            additional_info := some "ok"
            timestamp := some "t0" },
          [emittedRecord]) :=
  valid_run_reaches_complete sampleBusStops "Stazione FS" "High" "None"
    "ok" "t0" none [] (by decide) (by decide) (by decide)
    (fun f dct h => nomatch h)

/-- C6 counterexample: with a collaborator present that raises, the
completion step does not end the conversation and produces an error
rather than a confirmation string (the report having already been
appended), contradicting the claim for the "or errors" case. -/
theorem erroring_collaborator_blocks_confirmation :
    bot_step (some (fun _ => Except.error "boom")) "t0" (.msg "lights broken")
        .ADDITIONAL_INFO filledData []
      = some (.ADDITIONAL_INFO,
          { filledData with
            additional_info := some "lights broken"
            timestamp := some "t0" },
          [emittedRecord], Except.error "boom") := rfl

/-- C6 amended: if the analysis collaborator is absent (`none`), report
completion succeeds unimpeded: the record is appended, `END` is
returned, and the confirmation string is exactly the summary with no
AI-analysis section.  (When a present collaborator raises, the
exception propagates instead: the report is stored but no confirmation
is produced.) -/
theorem absent_collaborator_still_completes :
    ∀ (text now : String) (d : UserData) (reports : List Dict)
      (loc cl : String) (cs : List String),
      d.location = some loc → d.crowd_level = some cl →
      d.safety_concerns = some cs →
      complete_report text now none d reports
        = some ({ d with additional_info := some text, timestamp := some now },
                reports ++
                  [[("location", Val.str loc), ("crowd_level", Val.str cl),
                    ("safety_concerns", Val.strList cs),
                    ("timestamp", Val.str now)]],
                Except.ok
                  ("✅ Report submitted successfully!\n\n" ++
                   "📍 Location: " ++ loc ++ "\n" ++
                   "👥 Crowd Level: " ++ cl ++ "\n" ++
                   "⚠️ Safety Concerns: " ++ String.intercalate ", " cs ++ "\n",
                   .ENDED)) := by
  intro text now d reports loc cl cs hloc hcl hcs
  obtain ⟨dloc, dcl, dcs, dinfo, dts⟩ := d
  simp only at hloc hcl hcs
  subst hloc; subst hcl; subst hcs
  rfl

/-- Witness for C6: the concrete completion of `filledData` with no
collaborator. -/
theorem absent_collaborator_still_completes_witness :
    complete_report "ok" "t0" none filledData []
      = some ({ filledData with
                additional_info := some "ok"
                timestamp := some "t0" },
              [emittedRecord],
              Except.ok
                ("✅ Report submitted successfully!\n\n📍 Location: Stazione FS\n👥 Crowd Level: High\n⚠️ Safety Concerns: None\n",
                 .ENDED)) :=
  absent_collaborator_still_completes "ok" "t0" filledData []
    "Stazione FS" "High" ["None"] rfl rfl rfl

/-- C7 counterexample: cancelling after the location was entered ends
the conversation, but the in-progress record is not discarded — the
returned session data still holds the entered location. -/
theorem cancel_keeps_partial_record :
    bot_step none "t0" .cancel .CROWD_LEVEL
        { location := some "Stazione FS" } []
      = some (.ENDED, { location := some "Stazione FS" }, [],
              Except.ok "") ∧
    ({ location := some "Stazione FS" } : UserData).location
      = some "Stazione FS" :=
  ⟨rfl, rfl⟩

/-- C7 amended: `/cancel` at any non-terminal state ends the
conversation with no record appended to the report store, with a result
independent of the analysis collaborator (so the collaborator is never
consulted), and the next report starts again at `LOCATION`; the
partial record, however, is kept in the session data (it is only
overwritten field by field by the next report). -/
theorem cancel_ends_without_emitting :
    ∀ (qe qe' : Option (Dict → Except String String)) (now now' : String)
      (s : ConvState) (d : UserData) (reports : List Dict),
      s ≠ .ENDED →
      bot_step qe now .cancel s d reports
        = some (.ENDED, d, reports, Except.ok "") ∧
      bot_step qe now .cancel s d reports
        = bot_step qe' now' .cancel s d reports ∧
      ∀ stops, (start_report stops).2.2 = ConvState.LOCATION := by
  intro qe qe' now now' s d reports hs
  cases s with
  | ENDED => exact absurd rfl hs
  | LOCATION => exact ⟨rfl, rfl, fun _ => rfl⟩
  | CROWD_LEVEL => exact ⟨rfl, rfl, fun _ => rfl⟩
  | SAFETY_CONCERNS => exact ⟨rfl, rfl, fun _ => rfl⟩
  | ADDITIONAL_INFO => exact ⟨rfl, rfl, fun _ => rfl⟩

/-- Witness for C7: cancelling at `SAFETY_CONCERNS` with and without a
collaborator present. -/
theorem cancel_ends_without_emitting_witness :
    bot_step none "t0" .cancel .SAFETY_CONCERNS filledData []
      = some (.ENDED, filledData, [], Except.ok "") ∧
    bot_step none "t0" .cancel .SAFETY_CONCERNS filledData []
      = bot_step (some (fun _ => Except.error "x")) "t1" .cancel
          .SAFETY_CONCERNS filledData [] ∧
    ∀ stops, (start_report stops).2.2 = ConvState.LOCATION :=
  cancel_ends_without_emitting none (some (fun _ => Except.error "x"))
    "t0" "t1" .SAFETY_CONCERNS filledData [] (by decide)

/-- C8: the bot stores the safety concern as the single-element list
`[text]` and advances unconditionally to `ADDITIONAL_INFO` on any
value, while the web form variant attaches the full multiselect list —
which may hold zero or several concerns — to the submitted record. -/
theorem single_concern_vs_multiselect :
    (∀ (t : String) (d : UserData),
        process_safety_concerns t d
          = ({ d with safety_concerns := some [t] },
             "📝 Any additional information? (Type 'none' if nothing to add)",
             .ADDITIONAL_INFO) ∧
        List.length [t] = 1) ∧
    (∀ (loc : String) (delay : ℤ) (cl : String) (cs : List String)
       (info now : String) (r : Dict),
        web_submit_report loc delay cl cs info now = some r →
        List.lookup "safety_concerns" r = some (Val.strList cs)) ∧
    (∃ r, web_submit_report "Stazione FS" 0 "Low" [] "" "t0" = some r ∧
        List.lookup "safety_concerns" r = some (Val.strList [])) ∧
    (∃ r, web_submit_report "Stazione FS" 0 "Low"
            ["Poor Lighting", "Technical Issues"] "" "t0" = some r ∧
        List.lookup "safety_concerns" r
          = some (Val.strList ["Poor Lighting", "Technical Issues"])) := by
  refine ⟨fun t d => ⟨rfl, rfl⟩, ?_, ⟨_, rfl, rfl⟩, ⟨_, rfl, rfl⟩⟩
  intro loc delay cl cs info now r h
  unfold web_submit_report at h
  rw [Option.map_eq_some'] at h
  obtain ⟨score, _, hr⟩ := h
  subst hr
  rfl

/-- Witness for C8: the multiselect record of a two-concern web
submission carries both concerns. -/
theorem single_concern_vs_multiselect_witness :
    List.lookup "safety_concerns"
        [("location", Val.str "Ospedale"), ("delay_minutes", Val.int 0),
         ("crowd_level", Val.str "Low"),
         ("safety_concerns", Val.strList ["None", "Poor Lighting"]),
         ("additional_info", Val.str ""), ("timestamp", Val.str "t0"),
         ("safety_score", Val.num (max 1 (min 5 (applyConcerns (5 + 0) ["None", "Poor Lighting"]))))]
      = some (Val.strList ["None", "Poor Lighting"]) :=
  single_concern_vs_multiselect.2.1 "Ospedale" 0 "Low"
    ["None", "Poor Lighting"] "" "t0" _ rfl

/-- The report list produced by a successful `complete_report` is the
old list with exactly one record appended at the end. -/
lemma complete_report_shape (text now : String)
    (qe : Option (Dict → Except String String)) (d : UserData)
    (reports : List Dict)
    (out : UserData × List Dict × Except String (String × ConvState))
    (h : complete_report text now qe d reports = some out) :
    ∃ rec, out.2.1 = reports ++ [rec] := by
  unfold complete_report at h
  split at h
  · dsimp only at h
    split at h
    · obtain rfl := (Option.some.inj h).symm
      exact ⟨_, rfl⟩
    · obtain rfl := (Option.some.inj h).symm
      exact ⟨_, rfl⟩
  · exact Option.noConfusion h

/-- C10: the bot's report store is append-only: every handled step
either leaves it unchanged or appends exactly one record at the end,
previously appended records are unchanged (same entries at all old
positions), a completion step grows the list by exactly 1, and every
non-completion step leaves the list identical. -/
theorem reports_append_only :
    ∀ (qe : Option (Dict → Except String String)) (now : String)
      (inp : BotInput) (s : ConvState) (d : UserData) (reports : List Dict)
      (s' : ConvState) (d' : UserData) (reports' : List Dict)
      (r : Except String String),
      bot_step qe now inp s d reports = some (s', d', reports', r) →
      (reports' = reports ∨ ∃ rec, reports' = reports ++ [rec]) ∧
      (∀ i, i < reports.length → reports'[i]? = reports[i]?) ∧
      ((s = .ADDITIONAL_INFO ∧ ∃ t, inp = .msg t) →
          reports'.length = reports.length + 1) ∧
      ((s ≠ .ADDITIONAL_INFO ∨ inp = .cancel) → reports' = reports) := by
  intro qe now inp s d reports s' d' reports' r h
  cases inp with
  | cancel =>
    cases s with
    | ENDED => exact Option.noConfusion h
    | LOCATION =>
      simp only [bot_step, Option.some.injEq, Prod.mk.injEq] at h
      obtain ⟨-, -, hr, -⟩ := h
      subst hr
      exact ⟨Or.inl rfl, fun i _ => rfl, (by rintro ⟨-, t, ht⟩; exact nomatch ht),
             fun _ => rfl⟩
    | CROWD_LEVEL =>
      simp only [bot_step, Option.some.injEq, Prod.mk.injEq] at h
      obtain ⟨-, -, hr, -⟩ := h
      subst hr
      exact ⟨Or.inl rfl, fun i _ => rfl, (by rintro ⟨-, t, ht⟩; exact nomatch ht),
             fun _ => rfl⟩
    | SAFETY_CONCERNS =>
      simp only [bot_step, Option.some.injEq, Prod.mk.injEq] at h
      obtain ⟨-, -, hr, -⟩ := h
      subst hr
      exact ⟨Or.inl rfl, fun i _ => rfl, (by rintro ⟨-, t, ht⟩; exact nomatch ht),
             fun _ => rfl⟩
    | ADDITIONAL_INFO =>
      simp only [bot_step, Option.some.injEq, Prod.mk.injEq] at h
      obtain ⟨-, -, hr, -⟩ := h
      subst hr
      exact ⟨Or.inl rfl, fun i _ => rfl, (by rintro ⟨-, t, ht⟩; exact nomatch ht),
             fun _ => rfl⟩
  | msg t =>
    cases s with
    | ENDED => exact Option.noConfusion h
    | LOCATION =>
      simp only [bot_step, process_location, Option.some.injEq,
        Prod.mk.injEq] at h
      obtain ⟨-, -, hr, -⟩ := h
      subst hr
      exact ⟨Or.inl rfl, fun i _ => rfl, (by rintro ⟨hs, -⟩; exact nomatch hs),
             fun _ => rfl⟩
    | CROWD_LEVEL =>
      simp only [bot_step, process_crowd_level, Option.some.injEq,
        Prod.mk.injEq] at h
      obtain ⟨-, -, hr, -⟩ := h
      subst hr
      exact ⟨Or.inl rfl, fun i _ => rfl, (by rintro ⟨hs, -⟩; exact nomatch hs),
             fun _ => rfl⟩
    | SAFETY_CONCERNS =>
      simp only [bot_step, process_safety_concerns, Option.some.injEq,
        Prod.mk.injEq] at h
      obtain ⟨-, -, hr, -⟩ := h
      subst hr
      exact ⟨Or.inl rfl, fun i _ => rfl, (by rintro ⟨hs, -⟩; exact nomatch hs),
             fun _ => rfl⟩
    | ADDITIONAL_INFO =>
      simp only [bot_step] at h
      cases hcr : complete_report t now qe d reports with
      | none => rw [hcr] at h; exact Option.noConfusion h
      | some out =>
        obtain ⟨rec, hrec⟩ :=
          complete_report_shape t now qe d reports out hcr
        rw [hcr] at h
        obtain ⟨d1, reports1, res⟩ := out
        simp only at hrec
        subst hrec
        cases res with
        | error e =>
          simp only [Option.some.injEq, Prod.mk.injEq] at h
          obtain ⟨-, -, hr, -⟩ := h
          subst hr
          exact ⟨Or.inr ⟨rec, rfl⟩,
                 fun i hi => List.getElem?_append_left hi,
                 fun _ => by simp,
                 fun hx => by
                   rcases hx with hs | hc
                   · exact absurd rfl hs
                   · exact nomatch hc⟩
        | ok p =>
          obtain ⟨conf, s1⟩ := p
          simp only [Option.some.injEq, Prod.mk.injEq] at h
          obtain ⟨-, -, hr, -⟩ := h
          subst hr
          exact ⟨Or.inr ⟨rec, rfl⟩,
                 fun i hi => List.getElem?_append_left hi,
                 fun _ => by simp,
                 fun hx => by
                   rcases hx with hs | hc
                   · exact absurd rfl hs
                   · exact nomatch hc⟩

/-- Witness for C10: the completion step at `filledData` appends
exactly one record, and old positions are unchanged. -/
theorem reports_append_only_witness :
    ([emittedRecord] = ([] : List Dict) ∨
      ∃ rec, [emittedRecord] = ([] : List Dict) ++ [rec]) ∧
    (∀ i, i < ([] : List Dict).length →
        [emittedRecord][i]? = ([] : List Dict)[i]?) ∧
    ((ConvState.ADDITIONAL_INFO = ConvState.ADDITIONAL_INFO ∧
        ∃ t, BotInput.msg "ok" = BotInput.msg t) →
      [emittedRecord].length = ([] : List Dict).length + 1) ∧
    ((ConvState.ADDITIONAL_INFO ≠ ConvState.ADDITIONAL_INFO ∨
        BotInput.msg "ok" = BotInput.cancel) →
      [emittedRecord] = ([] : List Dict)) :=
  reports_append_only none "t0" (.msg "ok") .ADDITIONAL_INFO filledData []
    .ENDED
    { filledData with
      additional_info := some "ok"
      timestamp := some "t0" }
    [emittedRecord]
    (Except.ok
      "✅ Report submitted successfully!\n\n📍 Location: Stazione FS\n👥 Crowd Level: High\n⚠️ Safety Concerns: None\n")
    rfl

/-- Witness for C9 at concrete inputs: crowd level "Very High" raises
(returns `none`), while the unknown concern "Vandalism" is skipped. -/
theorem calculate_safety_score_asymmetric_witness :
    calculate_safety_score "Very High" ["None"] = none ∧
    calculate_safety_score "Low" ([] ++ "Vandalism" :: ["None"])
      = calculate_safety_score "Low" ([] ++ ["None"]) :=
  ⟨calculate_safety_score_asymmetric.1 "Very High" ["None"] (by decide),
   calculate_safety_score_asymmetric.2 "Low" "Vandalism" [] ["None"] (by decide)⟩
